import Mathlib

/-!
Shallow embedding of `packages/@aws-cdk/aws-kinesisfirehose-destinations/lib/common.ts`.

The module defines a `Compression` value class with five predefined singletons,
a numeric `BackupMode` enum, and four props interfaces whose fields are all
optional and read-only.  External types referenced through imports
(`cdk.Duration`, `cdk.Size`, `kms.IKey`, `logs.ILogGroup`, `s3.IBucket`,
`iam.IRole`, `IDataProcessor`) are abstract references from other packages;
they are embedded as opaque-by-interface wrapper structures, since the module
under verification never inspects them.
-/

/-- Abstract external reference: `cdk.Duration` (a time duration). -/
structure Duration where
  ref : Nat
deriving DecidableEq

/-- Abstract external reference: `cdk.Size` (a data size). -/
structure Size where
  ref : Nat
deriving DecidableEq

/-- Abstract external reference: `kms.IKey` (an encryption-key reference). -/
structure IKey where
  ref : Nat
deriving DecidableEq

/-- Abstract external reference: `logs.ILogGroup` (a CloudWatch log-group reference). -/
structure ILogGroup where
  ref : Nat
deriving DecidableEq

/-- Abstract external reference: `s3.IBucket` (an S3 bucket reference). -/
structure IBucket where
  ref : Nat
deriving DecidableEq

/-- Abstract external reference: `iam.IRole` (an IAM role reference). -/
structure IRole where
  ref : Nat
deriving DecidableEq

/-- Abstract external reference: `IDataProcessor` (a data-transformation processor). -/
structure IDataProcessor where
  ref : Nat
deriving DecidableEq

/-- Embeds `class Compression`: an immutable value object whose only field is
the read-only string tag `value`, set by the (public) constructor. -/
structure Compression where
  value : String
deriving DecidableEq

/-- `Compression.GZIP = new Compression('GZIP')`. -/
def Compression.GZIP : Compression := Compression.mk "GZIP"

/-- `Compression.HADOOP_SNAPPY = new Compression('HADOOP_SNAPPY')`. -/
def Compression.HADOOP_SNAPPY : Compression := Compression.mk "HADOOP_SNAPPY"

/-- `Compression.SNAPPY = new Compression('Snappy')`. -/
def Compression.SNAPPY : Compression := Compression.mk "Snappy"

/-- `Compression.UNCOMPRESSED = new Compression('UNCOMPRESSED')`. -/
def Compression.UNCOMPRESSED : Compression := Compression.mk "UNCOMPRESSED"

/-- `Compression.ZIP = new Compression('ZIP')`. -/
def Compression.ZIP : Compression := Compression.mk "ZIP"

/-- Embeds `enum BackupMode`: three members in declaration order
`ALL`, `FAILED`, `DISABLED`. -/
inductive BackupMode where
  | ALL
  | FAILED
  | DISABLED
deriving DecidableEq

/-- Numeric value carried by each `BackupMode` member: a TypeScript enum with
no initializers numbers its members 0, 1, 2 in declaration order. -/
def BackupMode.toNat : BackupMode → Nat
  | .ALL => 0
  | .FAILED => 1
  | .DISABLED => 2

/-- Embeds `interface DestinationLoggingProps`: two optional read-only fields. -/
structure DestinationLoggingProps where
  logging : Option Bool
  logGroup : Option ILogGroup
deriving DecidableEq

/-- Embeds `interface CommonS3Props`: six optional read-only fields.  The
source field `prefix` (the normal-delivery prefix) is embedded as
`deliveryPrefix` because its source name is a Lean keyword. -/
structure CommonS3Props where
  bufferingInterval : Option Duration
  bufferingSize : Option Size
  compression : Option Compression
  encryptionKey : Option IKey
  errorOutputPrefix : Option String
  deliveryPrefix : Option String
deriving DecidableEq

/-- Embeds `interface S3BackupDestinationProps extends DestinationLoggingProps,
CommonS3Props`: inherits all parent fields and adds two optional read-only
fields `backupBucket` and `backupMode`. -/
structure S3BackupDestinationProps extends DestinationLoggingProps, CommonS3Props where
  backupBucket : Option IBucket
  backupMode : Option BackupMode
deriving DecidableEq

/-- Embeds `interface CommonDestinationProps extends DestinationLoggingProps`:
inherits the logging fields and adds three optional read-only fields
`role`, `processors` and `backupConfiguration`. -/
structure CommonDestinationProps extends DestinationLoggingProps where
  role : Option IRole
  processors : Option (List IDataProcessor)
  backupConfiguration : Option S3BackupDestinationProps
deriving DecidableEq

/-- Field tuple of `CommonS3Props`: the six option-typed fields in
declaration order. -/
def CommonS3Props.toTuple (p : CommonS3Props) :
    Option Duration × Option Size × Option Compression × Option IKey ×
    Option String × Option String :=
  (p.bufferingInterval, p.bufferingSize, p.compression, p.encryptionKey,
   p.errorOutputPrefix, p.deliveryPrefix)

/-- Field tuple of `S3BackupDestinationProps`: the inherited logging props,
the inherited common S3 props, and the two own option-typed fields. -/
def S3BackupDestinationProps.toTuple (p : S3BackupDestinationProps) :
    DestinationLoggingProps × CommonS3Props × Option IBucket × Option BackupMode :=
  (p.toDestinationLoggingProps, p.toCommonS3Props, p.backupBucket, p.backupMode)

/-- Field tuple of `CommonDestinationProps`: the inherited logging props and
the three own option-typed fields. -/
def CommonDestinationProps.toTuple (p : CommonDestinationProps) :
    DestinationLoggingProps × Option IRole × Option (List IDataProcessor) ×
    Option S3BackupDestinationProps :=
  (p.toDestinationLoggingProps, p.role, p.processors, p.backupConfiguration)

/-- The `CommonS3Props` value with every field absent. -/
def CommonS3Props.empty : CommonS3Props :=
  CommonS3Props.mk none none none none none none

/-- C1: each of the five predefined `Compression` singletons exposes exactly
its documented string tag, with `SNAPPY` exposing the mixed-case "Snappy". -/
theorem compression_singleton_tags :
    Compression.GZIP.value = "GZIP" ∧
    Compression.HADOOP_SNAPPY.value = "HADOOP_SNAPPY" ∧
    Compression.SNAPPY.value = "Snappy" ∧
    Compression.UNCOMPRESSED.value = "UNCOMPRESSED" ∧
    Compression.ZIP.value = "ZIP" := by
  refine ⟨rfl, rfl, rfl, rfl, rfl⟩

/-- C2: `BackupMode` has exactly the three pairwise-distinct, decidably
discriminable values `ALL`, `FAILED` and `DISABLED`, and no others. -/
theorem backupMode_exactly_three :
    (BackupMode.ALL ≠ BackupMode.FAILED ∧
     BackupMode.ALL ≠ BackupMode.DISABLED ∧
     BackupMode.FAILED ≠ BackupMode.DISABLED) ∧
    (∀ b : BackupMode,
      b = BackupMode.ALL ∨ b = BackupMode.FAILED ∨ b = BackupMode.DISABLED) := by
  refine ⟨⟨by decide, by decide, by decide⟩, ?_⟩
  intro b
  cases b
  · exact Or.inl rfl
  · exact Or.inr (Or.inl rfl)
  · exact Or.inr (Or.inr rfl)

/-- C3 counterexample: the `Compression` constructor is public, so a value
outside the five predefined singletons exists; `new Compression('LZO')` is a
`Compression` distinct from all five, refuting the closed-set claim. -/
theorem compression_not_closed_cex :
    Compression.mk "LZO" ≠ Compression.GZIP ∧
    Compression.mk "LZO" ≠ Compression.HADOOP_SNAPPY ∧
    Compression.mk "LZO" ≠ Compression.SNAPPY ∧
    Compression.mk "LZO" ≠ Compression.UNCOMPRESSED ∧
    Compression.mk "LZO" ≠ Compression.ZIP := by
  refine ⟨by decide, by decide, by decide, by decide, by decide⟩

/-- C3 amended: the five predefined singletons are pairwise distinct, but the
set of `Compression` values is not closed: the public constructor yields a
valid `Compression` exposing any given string tag. -/
theorem compression_singletons_distinct_but_open :
    (Compression.GZIP ≠ Compression.HADOOP_SNAPPY ∧
     Compression.GZIP ≠ Compression.SNAPPY ∧
     Compression.GZIP ≠ Compression.UNCOMPRESSED ∧
     Compression.GZIP ≠ Compression.ZIP ∧
     Compression.HADOOP_SNAPPY ≠ Compression.SNAPPY ∧
     Compression.HADOOP_SNAPPY ≠ Compression.UNCOMPRESSED ∧
     Compression.HADOOP_SNAPPY ≠ Compression.ZIP ∧
     Compression.SNAPPY ≠ Compression.UNCOMPRESSED ∧
     Compression.SNAPPY ≠ Compression.ZIP ∧
     Compression.UNCOMPRESSED ≠ Compression.ZIP) ∧
    (∀ s : String, ∃ c : Compression, c.value = s) := by
  refine ⟨⟨by decide, by decide, by decide, by decide, by decide, by decide,
          by decide, by decide, by decide, by decide⟩, ?_⟩
  intro s
  exact ⟨Compression.mk s, rfl⟩

/-- C4: for every string tag `s`, construction of a `Compression` from `s`
succeeds (it is a total function) and the resulting value exposes exactly
`s` as its `value` field. -/
theorem compression_constructor_value (s : String) :
    (Compression.mk s).value = s := rfl

/-- C4 witness: the constructor contract evaluated at the concrete tag "LZO". -/
theorem compression_constructor_value_witness :
    (Compression.mk "LZO").value = "LZO" :=
  compression_constructor_value "LZO"

/-- C5: every entity of the module is an immutable record of its construction
arguments: each field accessor returns exactly the argument supplied at
construction, and every value is fully determined by its fields (so no
operation can observe or produce any post-construction change). -/
theorem module_entities_immutable :
    (∀ s : String, (Compression.mk s).value = s) ∧
    (∀ x : Compression, x = Compression.mk x.value) ∧
    (∀ a b, (DestinationLoggingProps.mk a b).logging = a ∧
            (DestinationLoggingProps.mk a b).logGroup = b) ∧
    (∀ x : DestinationLoggingProps, x = DestinationLoggingProps.mk x.logging x.logGroup) ∧
    (∀ a b c d e f, (CommonS3Props.mk a b c d e f).toTuple = (a, b, c, d, e, f)) ∧
    (∀ x : CommonS3Props,
      x = CommonS3Props.mk x.bufferingInterval x.bufferingSize x.compression
            x.encryptionKey x.errorOutputPrefix x.deliveryPrefix) ∧
    (∀ l c a b, (S3BackupDestinationProps.mk l c a b).toTuple = (l, c, a, b)) ∧
    (∀ x : S3BackupDestinationProps,
      x = S3BackupDestinationProps.mk x.toDestinationLoggingProps x.toCommonS3Props
            x.backupBucket x.backupMode) ∧
    (∀ l a b c, (CommonDestinationProps.mk l a b c).toTuple = (l, a, b, c)) ∧
    (∀ x : CommonDestinationProps,
      x = CommonDestinationProps.mk x.toDestinationLoggingProps x.role
            x.processors x.backupConfiguration) := by
  refine ⟨fun s => rfl, fun x => rfl, fun a b => ⟨rfl, rfl⟩, fun x => rfl,
    fun a b c d e f => rfl, fun x => rfl, fun l c a b => rfl, fun x => rfl,
    fun l a b c => rfl, fun x => rfl⟩

/-- C6: `CommonS3Props` consists of exactly the six optional fields
(buffering interval, buffering size, compression, encryption key,
error-output prefix, normal-delivery prefix): the field tuple is a bijection
onto the product of the six option types, and the all-absent value is a valid
`CommonS3Props`, so no field is required. -/
theorem commonS3Props_shape :
    Function.Bijective CommonS3Props.toTuple ∧
    CommonS3Props.empty.toTuple = (none, none, none, none, none, none) := by
  refine ⟨⟨?_, ?_⟩, rfl⟩
  · intro x y h
    cases x
    cases y
    simpa [CommonS3Props.toTuple] using h
  · intro t
    exact ⟨CommonS3Props.mk t.1 t.2.1 t.2.2.1 t.2.2.2.1 t.2.2.2.2.1 t.2.2.2.2.2, rfl⟩

/-- C7: `S3BackupDestinationProps` contains every `DestinationLoggingProps`
field and every `CommonS3Props` field plus exactly the two additional optional
fields `backupBucket` and `backupMode`: its field tuple is a bijection onto
the product of the two parent shapes and the two option types, and the
all-absent value is valid, so the additional fields are optional. -/
theorem s3BackupDestinationProps_shape :
    Function.Bijective S3BackupDestinationProps.toTuple ∧
    (S3BackupDestinationProps.mk (DestinationLoggingProps.mk none none)
      CommonS3Props.empty none none).toTuple =
      (DestinationLoggingProps.mk none none, CommonS3Props.empty, none, none) := by
  refine ⟨⟨?_, ?_⟩, rfl⟩
  · intro x y h
    cases x
    cases y
    simpa [S3BackupDestinationProps.toTuple] using h
  · intro t
    exact ⟨S3BackupDestinationProps.mk t.1 t.2.1 t.2.2.1 t.2.2.2, rfl⟩

/-- C8: `CommonDestinationProps` contains every `DestinationLoggingProps`
field plus exactly the three additional optional fields `role`, `processors`
(an ordered list of processor references) and `backupConfiguration` (a nested
`S3BackupDestinationProps`): its field tuple is a bijection onto the product
of the parent shape and the three option types, and the all-absent value is
valid, so the additional fields are optional. -/
theorem commonDestinationProps_shape :
    Function.Bijective CommonDestinationProps.toTuple ∧
    (CommonDestinationProps.mk (DestinationLoggingProps.mk none none)
      none none none).toTuple =
      (DestinationLoggingProps.mk none none, none, none, none) := by
  refine ⟨⟨?_, ?_⟩, rfl⟩
  · intro x y h
    cases x
    cases y
    simpa [CommonDestinationProps.toTuple] using h
  · intro t
    exact ⟨CommonDestinationProps.mk t.1 t.2.1 t.2.2.1 t.2.2.2, rfl⟩

/-- C9: the tag mapping on the five predefined `Compression` singletons is
injective: the five tag strings are pairwise distinct, and `SNAPPY` is the
only singleton whose tag is not all-uppercase (it is the mixed-case
"Snappy", distinct from the uppercase "SNAPPY"). -/
theorem compression_tags_injective :
    (Compression.GZIP.value ≠ Compression.HADOOP_SNAPPY.value ∧
     Compression.GZIP.value ≠ Compression.SNAPPY.value ∧
     Compression.GZIP.value ≠ Compression.UNCOMPRESSED.value ∧
     Compression.GZIP.value ≠ Compression.ZIP.value ∧
     Compression.HADOOP_SNAPPY.value ≠ Compression.SNAPPY.value ∧
     Compression.HADOOP_SNAPPY.value ≠ Compression.UNCOMPRESSED.value ∧
     Compression.HADOOP_SNAPPY.value ≠ Compression.ZIP.value ∧
     Compression.SNAPPY.value ≠ Compression.UNCOMPRESSED.value ∧
     Compression.SNAPPY.value ≠ Compression.ZIP.value ∧
     Compression.UNCOMPRESSED.value ≠ Compression.ZIP.value) ∧
    (Compression.SNAPPY.value ≠ "SNAPPY" ∧
     Compression.SNAPPY.value.data.all (fun c => c.isUpper || c == '_') = false ∧
     Compression.GZIP.value.data.all (fun c => c.isUpper || c == '_') = true ∧
     Compression.HADOOP_SNAPPY.value.data.all (fun c => c.isUpper || c == '_') = true ∧
     Compression.UNCOMPRESSED.value.data.all (fun c => c.isUpper || c == '_') = true ∧
     Compression.ZIP.value.data.all (fun c => c.isUpper || c == '_') = true) := by
  refine ⟨⟨by decide, by decide, by decide, by decide, by decide, by decide,
          by decide, by decide, by decide, by decide⟩,
         ⟨by decide, by decide, by decide, by decide, by decide⟩⟩

/-- C10: the `BackupMode` members carry the numeric values of their
declaration order, `ALL = 0`, `FAILED = 1`, `DISABLED = 2`; in particular
`ALL`, and not `DISABLED`, is the unique zero value of the enumeration. -/
theorem backupMode_numeric_values :
    BackupMode.ALL.toNat = 0 ∧
    BackupMode.FAILED.toNat = 1 ∧
    BackupMode.DISABLED.toNat = 2 ∧
    (∀ b : BackupMode, b.toNat = 0 ↔ b = BackupMode.ALL) := by
  refine ⟨rfl, rfl, rfl, ?_⟩
  intro b
  cases b
  · exact ⟨fun _ => rfl, fun _ => rfl⟩
  · exact ⟨fun h => absurd h (by decide), fun h => absurd h (by decide)⟩
  · exact ⟨fun h => absurd h (by decide), fun h => absurd h (by decide)⟩
